import Mathlib

/-!
Shallow embedding of the `rcandy` property library (src/src/lib.rs).

Rust's `Rc<RefCell<T>>` handles are modelled as addresses into an explicit
heap `Heap T`; cloning an `Rc` (`to_owned`) keeps the same address, so the
aliasing behaviour of shared cells is captured by address equality.
Effectful Rust functions thread the heap explicitly; a `todo!()` body (a
panic on every call) is modelled as an `Option`-returning function that is
constantly `none`.
-/

/-- An address of a shared cell (`Rc<RefCell<_>>` handle identity). -/
abbrev Addr := Nat

/-- The store of shared mutable cells: contents of every address, plus the
next fresh address used by allocation (`Rc::new(RefCell::new(v))`). -/
structure Heap (T : Type) where
  cells : Nat → T
  next : Nat

/-- Reading the cell an `Rc<RefCell<T>>` handle points to. -/
def Heap.read (h : Heap T) (a : Addr) : T := h.cells a

/-- `RefCell::replace` on the cell at address `a`: in-place replacement. -/
def Heap.write (h : Heap T) (a : Addr) (v : T) : Heap T :=
  { h with cells := fun b => if b = a then v else h.cells b }

/-- `Rc::new(RefCell::new(v))`: allocate a fresh cell holding `v`. -/
def Heap.alloc (h : Heap T) (v : T) : Addr × Heap T :=
  (h.next, { cells := fun b => if b = h.next then v else h.cells b, next := h.next + 1 })

/-- `type GET<TProp> = fn() -> Rc<RefCell<TProp>>` (src line 25). -/
abbrev GET (TProp : Type) := Unit → Addr

/-- `type SET<TProp> = fn(TProp)` (src line 27): installs a value, an
effect on the heap of cells. -/
abbrev SET (TProp : Type) := TProp → Heap TProp → Heap TProp

/-- `type GETTER<TStruct, TProp> = fn(this: TStruct) -> Rc<RefCell<TProp>>`
(src line 30): from the owner, produce a handle to the cell. -/
abbrev GETTER (TStruct TProp : Type) := TStruct → Addr

/-- `type SETTER<TStruct, TProp> = fn(this: TStruct, TProp)` (src line 32):
from the owner and a value, an effect on the heap of cells. -/
abbrev SETTER (TStruct TProp : Type) := TStruct → TProp → Heap TProp → Heap TProp

/-- Method dictionary of `trait GetProp<TProp>` (owner-agnostic read
capability): `fn get(&self) -> Rc<RefCell<TProp>>`. -/
structure GetPropDict (TProp : Type) where
  get : Unit → Addr

/-- Method dictionary of `trait SetProp<TProp>` (owner-agnostic write
capability): `fn set(&self, val: TProp)`. -/
structure SetPropDict (TProp : Type) where
  set : TProp → Heap TProp → Heap TProp

/-- Method dictionary of `trait ImplProp<TProp> : GetProp<TProp> +
SetProp<TProp>`: the owner-agnostic combined capability requires both a
read and a write capability. -/
structure ImplPropDict (TProp : Type) where
  toGetProp : GetPropDict TProp
  toSetProp : SetPropDict TProp

/-- Method dictionary of `trait GetProperty<TStruct, TProp>` (owner-aware
read capability): `fn get(&self, item: TStruct) -> Rc<RefCell<TProp>>`,
over a receiver type `A`. -/
structure GetPropertyDict (TStruct TProp A : Type) where
  get : A → TStruct → Addr

/-- Method dictionary of `trait SetProperty<TStruct, TProp>` (owner-aware
write capability): `fn set(&self, item: TStruct, val: TProp)`. -/
structure SetPropertyDict (TStruct TProp A : Type) where
  set : A → TStruct → TProp → Heap TProp → Heap TProp

/-- Method dictionary of `trait ImplProperty<TStruct, TProp> :
GetProperty<TStruct, TProp> + GetProperty<TStruct, TProp>` (src line 62).
As written in the source, the supertrait bound names `GetProperty` twice
and `SetProperty` not at all; the two identical bounds resolve to the one
read capability, so the dictionary carries exactly one `GetProperty`
component and no `SetProperty` component. -/
structure ImplPropertyDict (TStruct TProp A : Type) where
  toGetProperty : GetPropertyDict TStruct TProp A

/-- `struct Property<TProp> { implementation: Box<dyn ImplProp<TProp>> }`:
the type-erased handle owns an object satisfying the combined
owner-agnostic capability. -/
structure Property (TProp : Type) where
  implementation : ImplPropDict TProp

/-- `impl<TProp> GetProp<TProp> for Property<TProp>`: the body of `get` is
`todo!()` (src lines 176-181), a panic on every call, modelled as `none`.
No `SetProp` impl for `Property` exists in the source, so `Property` has
no set operation at all. -/
def Property.get (self : Property TProp) : Option Addr := none

/-- `struct PropertyGetter<TStruct, TProp> { item, get_func }` (src lines
66-70): binds an owner instance and a getter function. -/
structure PropertyGetter (TStruct TProp : Type) where
  item : TStruct
  get_func : GETTER TStruct TProp

/-- `PropertyGetter::new(item, get_func)` (src lines 75-82): stores both
fields verbatim. -/
def PropertyGetter.new (item : TStruct) (get_func : GETTER TStruct TProp) :
    PropertyGetter TStruct TProp :=
  { item := item, get_func := get_func }

/-- `impl GetProperty for PropertyGetter`: `fn get(&self, item) {
(self.get_func)(item) }` (src lines 86-91). Note the function is applied
to the call-time `item` argument, not to the stored `self.item`. -/
def PropertyGetter.get (self : PropertyGetter TStruct TProp) (item : TStruct) : Addr :=
  self.get_func item

/-- `struct PropertySetter<TStruct, TProp> { item, set_func }` (src lines
94-98). -/
structure PropertySetter (TStruct TProp : Type) where
  item : TStruct
  set_func : SETTER TStruct TProp

/-- `PropertySetter::new(item, set_func)` (src lines 103-110): stores both
fields verbatim. -/
def PropertySetter.new (item : TStruct) (set_func : SETTER TStruct TProp) :
    PropertySetter TStruct TProp :=
  { item := item, set_func := set_func }

/-- `impl SetProperty for PropertySetter`: `fn set(&self, item, val) {
(self.set_func)(item, val) }` (src lines 114-119). The stored `self.item`
is not consulted. -/
def PropertySetter.set (self : PropertySetter TStruct TProp) (item : TStruct) (val : TProp) :
    Heap TProp → Heap TProp :=
  self.set_func item val

/-- `struct PropertyImplementation<TStruct, TProp> { getter, setter }`
(src lines 122-126). -/
structure PropertyImplementation (TStruct TProp : Type) where
  getter : PropertyGetter TStruct TProp
  setter : PropertySetter TStruct TProp

/-- `PropertyImplementation::new(item, get_func, set_func)` (src lines
138-147): composes a `PropertyGetter` and a `PropertySetter` over the same
owner instance. -/
def PropertyImplementation.new (item : TStruct) (get_func : GETTER TStruct TProp)
    (set_func : SETTER TStruct TProp) : PropertyImplementation TStruct TProp :=
  { getter := PropertyGetter.new item get_func,
    setter := PropertySetter.new item set_func }

/-- `impl GetProperty for PropertyImplementation`: forwards to the inner
getter (src lines 150-155). -/
def PropertyImplementation.get (self : PropertyImplementation TStruct TProp)
    (item : TStruct) : Addr :=
  self.getter.get item

/-- `impl SetProperty for PropertyImplementation`: forwards to the inner
setter (src lines 158-163). -/
def PropertyImplementation.set (self : PropertyImplementation TStruct TProp)
    (item : TStruct) (val : TProp) : Heap TProp → Heap TProp :=
  self.setter.set item val

/-- `impl Into<Property<TProp>> for PropertyImplementation<TStruct, TProp>`
(src lines 129-134): the body of `into` is `todo!()`, a panic on every
call, modelled as `none`. -/
def PropertyImplementation.intoProperty (self : PropertyImplementation TStruct TProp) :
    Option (Property TProp) :=
  none

/-- `struct Dog { _dog_size: Rc<RefCell<u64>>, dog_size: Property<u64> }`
(tests module, src lines 191-195). `u64` values are modelled as `Nat`
bounded by `2^64`. -/
structure Dog where
  _dog_size : Addr
  dog_size : Property Nat

/-- `Dog::get_size` (src lines 216-219): `self._dog_size.to_owned()`
clones the `Rc`, a new handle to the same cell, i.e. the same address. -/
def Dog.get_size (self : Dog) : Addr :=
  self._dog_size

/-- `Dog::set_size` (src lines 221-224): `self._dog_size.replace(value)`
replaces the contents of the cell behind the stored handle. -/
def Dog.set_size (self : Dog) (value : Nat) (h : Heap Nat) : Heap Nat :=
  h.write self._dog_size value

/-- `Dog::new(&self, size)` (src lines 200-214): builds the `dog_size`
field as `PropertyImplementation::new(self, Dog::get_size,
Dog::set_size).into()` and the `_dog_size` field as
`Rc::new(RefCell::new(size))`. Since `into` is `todo!()` (a panic),
construction aborts on every call, modelled by propagating `none`. -/
def Dog.new (self : Dog) (size : Nat) (h : Heap Nat) : Option (Dog × Heap Nat) :=
  match (PropertyImplementation.new self Dog.get_size Dog.set_size).intoProperty with
  | none => none
  | some p =>
    let r := h.alloc size
    some ({ _dog_size := r.1, dog_size := p }, r.2)

/-- The error a shared mutable cell raises on an overlapping exclusive
borrow. -/
inductive BorrowError where
  | alreadyMutablyBorrowed
deriving DecidableEq

/-- Modelled from the spec: the Shared Mutable Cell (std `Rc<RefCell<T>>`,
a pre-existing external collaborator whose code is not under src/). Per
the spec it wraps a value, allows at most one outstanding mutable borrow
at any instant, and must reject a second concurrent mutable borrow at the
point of borrow. The borrow state is the `mutBorrowed` flag. -/
structure BorrowCell (T : Type) where
  value : T
  mutBorrowed : Bool

/-- Modelled from the spec: acquiring an exclusive (mutable) borrow of the
cell. If a mutable borrow is already outstanding this is a caller error
reported at the point of borrow (fail-fast, the cell is left untouched);
otherwise the borrow is granted. -/
def BorrowCell.borrow_mut (c : BorrowCell T) : Except BorrowError (BorrowCell T) :=
  if c.mutBorrowed then Except.error BorrowError.alreadyMutablyBorrowed
  else Except.ok { c with mutBorrowed := true }

/-- Modelled from the spec: `RefCell::replace(value)` as used by
`Dog::set_size` — take a mutable borrow, swap in the new value, return the
old value, release the borrow. Its only failure mode is the
borrow-discipline error; there is no domain-level set failure. -/
def BorrowCell.replace (c : BorrowCell T) (v : T) : Except BorrowError (T × BorrowCell T) :=
  match c.borrow_mut with
  | Except.error e => Except.error e
  | Except.ok c2 => Except.ok (c2.value, { value := v, mutBorrowed := false })

/-- A concrete erased capability value, usable where a `Property Nat` field
must be populated in examples. -/
def sampleProperty : Property Nat :=
  { implementation :=
      { toGetProp := { get := fun _ => 0 },
        toSetProp := { set := fun _ h => h } } }

/-- A concrete `Dog` value for instantiating universal statements. -/
def sampleDog : Dog :=
  { _dog_size := 0, dog_size := sampleProperty }

/-- A concrete starting heap. -/
def sampleHeap : Heap Nat :=
  { cells := fun _ => 0, next := 0 }

/-- Claim C1: the claim says every `Property<T>` supports both `get` and
`set`, total. On the code, `Property`'s only operation is `GetProp::get`,
whose body is `todo!()`: it panics (modelled `none`) on every handle, and
no `SetProp` impl for `Property` exists at all. This theorem evaluates the
code at the failing input: `get` diverges on every `Property` handle. -/
theorem property_get_always_panics : ∀ (p : Property Nat), p.get = none :=
  fun _ => rfl

/-- Claim C2: the claim says converting a `PropertyImplementation` into a
`Property` succeeds and the result's `get` delegates to the read
capability. On the code, `Into::into` is `todo!()`: the conversion panics
(modelled `none`) for every implementation, so it never succeeds. -/
theorem propertyImplementation_into_never_succeeds :
    ∀ (TStruct TProp : Type) (i : PropertyImplementation TStruct TProp),
      i.intoProperty = none :=
  fun _ _ _ => rfl

/-- Claim C3: two reads of the owner's accessor before any set yield the
same underlying cell, and after a later `set 7` both handles observe `7` —
this aliasing contract holds for the implemented accessors `Dog::get_size`
and `Dog::set_size` (second conjunct). But the claim's concrete scenario
cannot run: constructing the example owner with value 4 aborts, because
`Dog::new` builds its `dog_size` field through the unimplemented
`todo!()` conversion (first conjunct). -/
theorem dog_handles_alias_but_construction_aborts :
    (∀ (d : Dog) (h : Heap Nat), Dog.new d 4 h = none) ∧
    (∀ (d : Dog) (h : Heap Nat),
      let h1 := d.get_size
      let h2 := d.get_size
      h1 = h2 ∧ Heap.read (d.set_size 7 h) h1 = 7 ∧ Heap.read (d.set_size 7 h) h2 = 7) := by
  constructor
  · intro d h; rfl
  · intro d h
    refine ⟨rfl, ?_, ?_⟩ <;>
      simp [Dog.set_size, Dog.get_size, Heap.read, Heap.write]

/-- Claim C4: for every value of the declared `u64` property type
(including 0 and the type maximum), `set_size v` followed by reading the
handle returned by `get_size` on the same owner observes exactly `v`. -/
theorem dog_set_get_roundtrip (d : Dog) (h : Heap Nat) (v : Nat)
    (hv : v < 18446744073709551616) :
    Heap.read (d.set_size v h) d.get_size = v := by
  simp [Dog.set_size, Dog.get_size, Heap.read, Heap.write]

/-- Witness for claim C4 at the `u64` type maximum. -/
theorem dog_set_get_roundtrip_witness :
    18446744073709551615 < 18446744073709551616 ∧
    Heap.read (sampleDog.set_size 18446744073709551615 sampleHeap) sampleDog.get_size =
      18446744073709551615 :=
  ⟨by decide, dog_set_get_roundtrip sampleDog sampleHeap 18446744073709551615 (by decide)⟩

/-- Claim C5: `PropertyImplementation::new(owner, getter_fn, setter_fn)`
stores the two accessor functions verbatim in its getter and setter, and
its `get`/`set` forward to the stored getter/setter, which invoke exactly
those functions. -/
theorem propertyImplementation_stores_and_forwards :
    ∀ (TStruct TProp : Type) (o : TStruct) (f : GETTER TStruct TProp)
      (g : SETTER TStruct TProp) (i : TStruct) (v : TProp),
      (PropertyImplementation.new o f g).getter.get_func = f ∧
      (PropertyImplementation.new o f g).setter.set_func = g ∧
      (PropertyImplementation.new o f g).get i = f i ∧
      (PropertyImplementation.new o f g).set i v = g i v :=
  fun _ _ _ _ _ _ _ => ⟨rfl, rfl, rfl, rfl⟩

/-- Counterexample for claim C6: a `PropertyGetter` bound at construction
to owner `0` with accessor `fun n => n`, invoked with call-time item `1`,
produces `1`, not `f 0 = 0` — the result is not determined by the bound
owner. -/
theorem propertyGetter_bound_owner_counterexample :
    ¬ ((@PropertyGetter.new Nat Nat 0 (fun n => n)).get 1 = (fun n : Nat => n) 0) := by
  decide

/-- Claim C6 (amended): `PropertyGetter`'s read capability applies the
accessor to the owner supplied at call time, `get i = f i`; the owner
captured at construction is stored but never consulted, so two getters
bound to different owners behave identically. -/
theorem propertyGetter_get_uses_calltime_item :
    ∀ (TStruct TProp : Type) (o o2 : TStruct) (f : GETTER TStruct TProp) (i : TStruct),
      (@PropertyGetter.new TStruct TProp o f).get i = f i ∧
      (@PropertyGetter.new TStruct TProp o f).get i =
        (@PropertyGetter.new TStruct TProp o2 f).get i :=
  fun _ _ _ _ _ _ => ⟨rfl, rfl⟩

/-- Claim C7: distinct owner instances own independent cells — two cells
allocated as `Dog::new` allocates them (fresh `Rc::new(RefCell::new(_))`
per instance, holding 4 and 9) are at distinct addresses, and setting the
first dog to 10 leaves the second reading 9 (second conjunct). But the
claim's concrete scenario cannot run: `Dog::new` aborts in the
unimplemented `todo!()` conversion before returning either instance
(first conjunct). -/
theorem dog_instances_independent_but_construction_aborts :
    (∀ (d : Dog) (h : Heap Nat), Dog.new d 4 h = none ∧ Dog.new d 9 h = none) ∧
    (∀ (p q : Property Nat) (h : Heap Nat),
      let r1 := h.alloc 4
      let d1 : Dog := { _dog_size := r1.1, dog_size := p }
      let r2 := r1.2.alloc 9
      let d2 : Dog := { _dog_size := r2.1, dog_size := q }
      d1._dog_size ≠ d2._dog_size ∧
      Heap.read (d1.set_size 10 r2.2) d2.get_size = 9 ∧
      Heap.read (d1.set_size 10 r2.2) d1.get_size = 10) := by
  constructor
  · exact fun d h => ⟨rfl, rfl⟩
  · intro p q h
    refine ⟨?_, ?_, ?_⟩ <;>
      simp [Heap.alloc, Heap.read, Heap.write, Dog.set_size, Dog.get_size]

/-- Claim C8: on the shared mutable cell, attempting an exclusive borrow
while one is outstanding fails fast at the point of borrow with a
borrow-discipline error (and so does `replace`, which borrows first), and
when no borrow is outstanding `replace` always succeeds — the borrow error
is the only failure, never a domain-level set failure, and a failed
attempt leaves no modified cell behind. -/
theorem borrowCell_second_mut_borrow_fails_fast :
    ∀ (c : BorrowCell Nat) (v : Nat),
      (c.mutBorrowed = true →
        c.borrow_mut = Except.error BorrowError.alreadyMutablyBorrowed ∧
        c.replace v = Except.error BorrowError.alreadyMutablyBorrowed) ∧
      (c.mutBorrowed = false →
        c.replace v = Except.ok (c.value, { value := v, mutBorrowed := false })) := by
  intro c v
  constructor
  · intro hb
    simp [BorrowCell.borrow_mut, BorrowCell.replace, hb]
  · intro hb
    simp [BorrowCell.borrow_mut, BorrowCell.replace, hb]

/-- Witness for claim C8 on concrete cells. -/
theorem borrowCell_second_mut_borrow_fails_fast_witness :
    ((BorrowCell.mk 5 true).borrow_mut = Except.error BorrowError.alreadyMutablyBorrowed ∧
      (BorrowCell.mk 5 true).replace 7 = Except.error BorrowError.alreadyMutablyBorrowed) ∧
    (BorrowCell.mk 5 false).replace 7 = Except.ok (5, BorrowCell.mk 7 false) :=
  ⟨(borrowCell_second_mut_borrow_fails_fast (BorrowCell.mk 5 true) 7).1 rfl,
   (borrowCell_second_mut_borrow_fails_fast (BorrowCell.mk 5 false) 7).2 rfl⟩

/-- Claim C9: the owner-aware combined-capability dictionary
`ImplPropertyDict` (whose supertrait bound in the source names
`GetProperty` twice and never `SetProperty`) carries exactly the read
capability and nothing more: projecting out the `GetProperty` component is
a bijection, so any type with only a read capability satisfies
`ImplProperty` without providing any set operation. -/
theorem implProperty_requires_only_getProperty :
    ∀ (TStruct TProp A : Type),
      Function.Bijective
        (fun d : ImplPropertyDict TStruct TProp A => d.toGetProperty) := by
  intro TStruct TProp A
  constructor
  · intro d1 d2 hd
    cases d1; cases d2; simpa using hd
  · intro g
    exact ⟨{ toGetProperty := g }, rfl⟩

/-- Claim C10: `PropertySetter::set` depends only on its call-time
arguments: it invokes the stored function on the call-time item and value,
`set i v = f i v`, and two setters bound to different owners but the same
function perform the identical invocation — the stored item is never
consulted. -/
theorem propertySetter_ignores_bound_item :
    ∀ (TStruct TProp : Type) (o o2 : TStruct) (f : SETTER TStruct TProp)
      (i : TStruct) (v : TProp),
      (PropertySetter.new o f).set i v = f i v ∧
      (PropertySetter.new o f).set i v = (PropertySetter.new o2 f).set i v :=
  fun _ _ _ _ _ _ _ => ⟨rfl, rfl⟩
